import Mathlib

/-!
Shallow embedding of the tasks feature of the heroui-admin repository.

The task data-sync service (services/tasks-service) wraps a remote table store.
Each operation performs one remote call and then updates local state, raises
notifications (toasts), and either returns a value or throws.  We embed every
operation as a pure function whose extra input is the result of its remote
call, and whose output is the new service state together with the list of
toasts raised and the operation's outcome (returned value or thrown error).

The context hook (context/tasks-context) and the dialog orchestrator
(components/tasks-dialogs) are embedded as functions on the dialog state.
-/

namespace HerouiAdmin

/-- A task row: an id assigned by the remote store plus domain fields
(represented by a title). -/
structure Task where
  id : String
  title : String
deriving DecidableEq, Repr

/-- A thrown JS error / remote error object; `message` is `none` when the
message field is absent. -/
structure JsError where
  message : Option String
deriving DecidableEq, Repr

/-- JS `m || fallback` on an optional string field: an absent message and the
empty string are both falsy, so both fall back. -/
def jsOr (m : Option String) (fallback : String) : String :=
  match m with
  | some s => if s = "" then fallback else s
  | none => fallback

/-- The `data` field of a remote response as the update path sees it: JS
`null`, an array of rows, or a single row object. -/
inductive JsData where
  | null
  | arr (rows : List Task)
  | single (row : Task)
deriving DecidableEq, Repr

/-- Result of `select('*')`: either the full list of rows or an error
(exactly one of `data` / `error` is populated). -/
inductive SelectResult where
  | ok (rows : List Task)
  | err (e : JsError)
deriving DecidableEq, Repr

/-- Result of a `.single()`-terminated call: one row or an error. -/
inductive SingleResult where
  | ok (row : Task)
  | err (e : JsError)
deriving DecidableEq, Repr

/-- Result of `.update(..).eq(..).select()`: a data payload and an optional
error.  `data` may be null or an empty array even when `error` is null. -/
structure UpdateResult where
  data : JsData
  error : Option JsError
deriving DecidableEq, Repr

/-- A transient notification raised through the toast surface. -/
inductive Toast where
  | success (msg : String)
  | error (msg : String)
deriving DecidableEq, Repr

/-- Outcome of an async operation: resolve with a value or reject with a
thrown error. -/
inductive Outcome (α : Type) where
  | ok (a : α)
  | thrown (e : JsError)
deriving DecidableEq, Repr

/-- The service's local state: the in-memory tasks cache and the
loading / error flags. -/
structure ServiceState where
  tasks : List Task
  loading : Bool
  error : Option String
deriving DecidableEq, Repr

/-- Entry phase of `fetchTasks`: `setLoading(true); setError(null)` before the
remote call is issued. -/
def fetchTasksEntry (s : ServiceState) : ServiceState :=
  { s with loading := true, error := none }

/-- Settling phase of `fetchTasks`: on success replace the cache with the
fetched rows; on failure toast and record the message; in both cases the
`finally` clause clears the loading flag. -/
def fetchTasksSettle (remote : SelectResult) (s : ServiceState) :
    ServiceState × List Toast :=
  match remote with
  | SelectResult.ok rows => ({ s with tasks := rows, loading := false }, [])
  | SelectResult.err e =>
    let msg := jsOr e.message "Failed to fetch tasks, please try again later"
    ({ s with error := some msg, loading := false }, [Toast.error msg])

/-- `fetchTasks()` of the service.  It returns no `Outcome`: the catch clause
absorbs every failure into local state, so nothing is re-thrown. -/
def fetchTasks (remote : SelectResult) (s : ServiceState) :
    ServiceState × List Toast :=
  fetchTasksSettle remote (fetchTasksEntry s)

/-- `getTaskById(id)` of the service: returns the single matching row, or
toasts the error message and re-throws; the state is never touched. -/
def getTaskById (id : String) (remote : SingleResult) (s : ServiceState) :
    ServiceState × List Toast × Outcome Task :=
  match remote with
  | SingleResult.ok row => (s, [], Outcome.ok row)
  | SingleResult.err e =>
    let msg := jsOr e.message ("获取任务 " ++ id ++ " 失败")
    (s, [Toast.error msg], Outcome.thrown e)

/-- `createTask(task)` of the service: on success append the returned row to
the cache, toast success and resolve with it; on failure toast the message
and re-throw. -/
def createTask (remote : SingleResult) (s : ServiceState) :
    ServiceState × List Toast × Outcome Task :=
  match remote with
  | SingleResult.ok row =>
    ({ s with tasks := s.tasks ++ [row] },
      [Toast.success "Task created successfully"], Outcome.ok row)
  | SingleResult.err e =>
    let msg := jsOr e.message "Failed to create task"
    (s, [Toast.error msg], Outcome.thrown e)

/-- `updateTask(id, patch)` of the service: a transport error is thrown first;
otherwise a null or empty-array `data` raises a constructed not-found error
(`Task with ID ${id} not found`), caught by the same catch clause which toasts
its message and re-throws it; otherwise the first returned row is resolved
after a success toast.  The state is never touched. -/
def updateTask (id : String) (remote : UpdateResult) (s : ServiceState) :
    ServiceState × List Toast × Outcome Task :=
  match remote.error with
  | some e =>
    let msg := jsOr e.message ("Failed to update task " ++ id)
    (s, [Toast.error msg], Outcome.thrown e)
  | none =>
    match remote.data with
    | JsData.null =>
      let nf : JsError := ⟨some ("Task with ID " ++ id ++ " not found")⟩
      let msg := jsOr nf.message ("Failed to update task " ++ id)
      (s, [Toast.error msg], Outcome.thrown nf)
    | JsData.arr [] =>
      let nf : JsError := ⟨some ("Task with ID " ++ id ++ " not found")⟩
      let msg := jsOr nf.message ("Failed to update task " ++ id)
      (s, [Toast.error msg], Outcome.thrown nf)
    | JsData.arr (t :: _) =>
      (s, [Toast.success "Task updated successfully"], Outcome.ok t)
    | JsData.single t =>
      (s, [Toast.success "Task updated successfully"], Outcome.ok t)

/-- `deleteTask(id)` of the service: on success drop the rows whose id matches
from the cache and toast success; on failure toast the message and
re-throw. -/
def deleteTask (id : String) (remote : Option JsError) (s : ServiceState) :
    ServiceState × List Toast × Outcome Unit :=
  match remote with
  | none =>
    ({ s with tasks := s.tasks.filter (fun t => t.id != id) },
      [Toast.success "Task deleted successfully"], Outcome.ok ())
  | some e =>
    let msg := jsOr e.message ("Failed to delete task " ++ id)
    (s, [Toast.error msg], Outcome.thrown e)

/-- `useTasks()` of the context module: a null context value (no provider in
the tree) throws; otherwise the context object is returned as is. -/
def useTasks {α : Type} (ctx : Option α) : Except String α :=
  match ctx with
  | none => Except.error "useTasks has to be used within <TasksContext>"
  | some c => Except.ok c

/-- The dialog discriminator: `create`, `update`, `delete`, `imp` (the import
dialog) or, as `none` at the use sites, closed. -/
inductive TasksDialogType where
  | create
  | update
  | delete
  | imp
deriving DecidableEq, Repr

/-- The transient UI state the context carries: which dialog is open (`opn`,
named `open` in the source) and the current row. -/
structure DialogState where
  opn : Option TasksDialogType
  currentRow : Option Task
deriving DecidableEq, Repr

/-- What one render of `TasksDialogs` produces: the create drawer and the
`imp` dialog are always mounted with a boolean open prop; the update drawer
and the confirm dialog are mounted (with their open prop) only inside the
`currentRow &&` guard, hence `Option Bool`. -/
structure RenderedDialogs where
  createDrawerOpen : Bool
  impDialogOpen : Bool
  updateDrawerOpen : Option Bool
  confirmDialogOpen : Option Bool
deriving DecidableEq, Repr

/-- The render function of the `TasksDialogs` orchestrator. -/
def TasksDialogs (d : DialogState) : RenderedDialogs :=
  { createDrawerOpen := d.opn == some TasksDialogType.create
    impDialogOpen := d.opn == some TasksDialogType.imp
    updateDrawerOpen := d.currentRow.map (fun _ => d.opn == some TasksDialogType.update)
    confirmDialogOpen := d.currentRow.map (fun _ => d.opn == some TasksDialogType.delete) }

/-- A diagnostic log entry (`console.error`). -/
inductive LogEntry where
  | consoleError (msg : String)
deriving DecidableEq, Repr

/-- The `handleConfirm` callback of the confirm dialog: await
`deleteTask(currentRow.id)`; on resolve set `open` and `currentRow` to null;
on reject only log — the two setters in the try block are skipped. -/
def handleConfirm (row : Task) (remote : Option JsError) (s : ServiceState)
    (d : DialogState) : ServiceState × List Toast × DialogState × List LogEntry :=
  match deleteTask row.id remote s with
  | (s1, toasts, Outcome.ok _) =>
    (s1, toasts, { opn := none, currentRow := none }, [])
  | (s1, toasts, Outcome.thrown _) =>
    (s1, toasts, d, [LogEntry.consoleError "Failed to delete task"])

/-- Modelled from the spec: the confirm-dialog component
(components/confirm-dialog) and the dialog-state hook (hooks/use-dialog-state)
are files of this repository that are not available here.  Per the spec's
delete-flow state machine, clicking confirm closes the dialog — invoking
`onOpenChange`, whose handler toggles `open` back to null and sets
`currentRow` to null — independently of the async handler's outcome, so the
flow transitions to closed on both confirm success and failure. -/
def confirmClickClose (_d : DialogState) : DialogState :=
  { opn := none, currentRow := none }

/-- One full confirm interaction of the delete flow: the dialog closes on the
click, then `handleConfirm` runs against that state. -/
def confirmFlow (row : Task) (remote : Option JsError) (s : ServiceState)
    (d : DialogState) : ServiceState × List Toast × DialogState × List LogEntry :=
  handleConfirm row remote s (confirmClickClose d)

/-- The constructed not-found message is never the empty string, so the
JS `||` extraction keeps it rather than falling back. -/
theorem taskNotFoundMsg_ne_empty (id : String) :
    ("Task with ID " ++ id ++ " not found") ≠ "" := by
  intro h
  have h2 := congrArg String.length h
  simp [String.length_append] at h2
  exact absurd h2.1.1 (by decide)

/-- C1: for every id and patch, if the remote update call returns no transport
error but its data is null or an empty array, `updateTask` rejects with the
constructed not-found error naming the missing id rather than resolving. -/
theorem C1_updateTask_empty_result_rejects_not_found (id : String)
    (remote : UpdateResult) (s : ServiceState) (herr : remote.error = none)
    (hdata : remote.data = JsData.null ∨ remote.data = JsData.arr []) :
    (updateTask id remote s).2.2 =
      Outcome.thrown ⟨some ("Task with ID " ++ id ++ " not found")⟩ := by
  obtain ⟨d, e⟩ := remote
  simp only at herr hdata
  subst herr
  rcases hdata with h | h <;> subst h <;> rfl

/-- Witness for C1 at id `t1`, an empty-array data payload and an empty
cache. -/
theorem C1_witness :
    (⟨JsData.arr [], none⟩ : UpdateResult).error = none ∧
    ((⟨JsData.arr [], none⟩ : UpdateResult).data = JsData.null ∨
      (⟨JsData.arr [], none⟩ : UpdateResult).data = JsData.arr []) ∧
    (updateTask "t1" ⟨JsData.arr [], none⟩ ⟨[], false, none⟩).2.2 =
      Outcome.thrown ⟨some ("Task with ID " ++ "t1" ++ " not found")⟩ :=
  ⟨rfl, Or.inr rfl,
    C1_updateTask_empty_result_rejects_not_found "t1" ⟨JsData.arr [], none⟩
      ⟨[], false, none⟩ rfl (Or.inr rfl)⟩

/-- C2: in the delete confirmation flow, when the confirmed `deleteTask` call
fails, the dialog state still reverts to closed (`open` and `currentRow` both
null), and the handler produces only a diagnostic log — it re-surfaces
nothing to the dialog. -/
theorem C2_confirm_failure_still_closes (row : Task) (e : JsError)
    (s : ServiceState) (d : DialogState) :
    (confirmFlow row (some e) s d).2.2.1 = ⟨none, none⟩ ∧
    (confirmFlow row (some e) s d).2.2.2 =
      [LogEntry.consoleError "Failed to delete task"] :=
  ⟨rfl, rfl⟩

/-- C3: `updateTask` never writes the updated row back into the local tasks
cache, on any input — asymmetric with a successful `createTask` (which
appends) and a successful `deleteTask` (which filters by id). -/
theorem C3_updateTask_leaves_cache_unchanged :
    (∀ (id : String) (remote : UpdateResult) (s : ServiceState),
      ((updateTask id remote s).1).tasks = s.tasks) ∧
    (∀ (row : Task) (s : ServiceState),
      ((createTask (SingleResult.ok row) s).1).tasks = s.tasks ++ [row]) ∧
    (∀ (id : String) (s : ServiceState),
      ((deleteTask id none s).1).tasks = s.tasks.filter (fun t => t.id != id)) := by
  refine ⟨fun id remote s => ?_, fun row s => rfl, fun id s => rfl⟩
  obtain ⟨d, e⟩ := remote
  cases e
  · cases d with
    | null => rfl
    | arr rows => cases rows <;> rfl
    | single t => rfl
  · rfl

/-- C4: on a failing remote select, `fetchTasks` leaves the cache exactly as
it was, clears the loading flag and records the failure message in the error
state (its return type carries no outcome: the error is swallowed, never
re-thrown); on success the entire cache is replaced by the fetched rows. -/
theorem C4_fetchTasks_failure_and_success :
    (∀ (e : JsError) (s : ServiceState),
      fetchTasks (SelectResult.err e) s =
        ({ s with
            loading := false
            error := some (jsOr e.message
              "Failed to fetch tasks, please try again later") },
          [Toast.error (jsOr e.message
            "Failed to fetch tasks, please try again later")])) ∧
    (∀ (rows : List Task) (s : ServiceState),
      fetchTasks (SelectResult.ok rows) s =
        ({ s with tasks := rows, loading := false, error := none }, [])) :=
  ⟨fun _ _ => rfl, fun _ _ => rfl⟩

/-- C5: after a successful `createTask` whose returned record carries a fresh
id, the record sits exactly once at the tail of the in-memory list; on failure
the state is unchanged. -/
theorem C5_createTask_appends_once_at_tail (row : Task) (s : ServiceState)
    (hfresh : ∀ t ∈ s.tasks, t.id ≠ row.id) :
    ((createTask (SingleResult.ok row) s).1).tasks = s.tasks ++ [row] ∧
    (((createTask (SingleResult.ok row) s).1).tasks).count row = 1 ∧
    (((createTask (SingleResult.ok row) s).1).tasks).getLast? = some row ∧
    (∀ (e : JsError) (s1 : ServiceState),
      (createTask (SingleResult.err e) s1).1 = s1) := by
  have hnot : row ∉ s.tasks := fun hmem => hfresh row hmem rfl
  refine ⟨rfl, ?_, ?_, fun e s1 => rfl⟩
  · show (s.tasks ++ [row]).count row = 1
    rw [List.count_append, List.count_eq_zero.mpr hnot]
    simp
  · show (s.tasks ++ [row]).getLast? = some row
    simp

/-- Witness for C5: appending task `2` to a cache holding only task `1`. -/
theorem C5_witness :
    (∀ t ∈ ([⟨"1", "A"⟩] : List Task), t.id ≠ (⟨"2", "B"⟩ : Task).id) ∧
    ((createTask (SingleResult.ok ⟨"2", "B"⟩) ⟨[⟨"1", "A"⟩], false, none⟩).1).tasks =
      [⟨"1", "A"⟩] ++ [⟨"2", "B"⟩] :=
  ⟨by decide,
    (C5_createTask_appends_once_at_tail ⟨"2", "B"⟩ ⟨[⟨"1", "A"⟩], false, none⟩
      (by decide)).1⟩

/-- C6: after a successful `deleteTask i`, no record with id `i` remains, the
survivors keep their relative order (the new cache is the order-preserving
filter of the old, a sublist of it); on failure the state is untouched. -/
theorem C6_deleteTask_removes_by_id (id : String) (s : ServiceState) :
    ((deleteTask id none s).1).tasks = s.tasks.filter (fun t => t.id != id) ∧
    (∀ t ∈ ((deleteTask id none s).1).tasks, t.id ≠ id) ∧
    List.Sublist ((deleteTask id none s).1).tasks s.tasks ∧
    (∀ (e : JsError) (s1 : ServiceState),
      (deleteTask id (some e) s1).1 = s1) := by
  refine ⟨rfl, ?_, ?_, fun e s1 => rfl⟩
  · intro t ht
    simp only [deleteTask, List.mem_filter] at ht
    simpa using ht.2
  · exact List.filter_sublist s.tasks

/-- C7 refuted as stated: at `updateTask "x"` with no transport error and an
empty data array, the single error notification carries the constructed
not-found message, which is not server-provided (the remote error is null)
and differs from the fixed per-operation fallback `Failed to update task x`. -/
theorem C7_counterexample :
    (updateTask "x" ⟨JsData.arr [], none⟩ ⟨[], false, none⟩).2.1 =
      [Toast.error "Task with ID x not found"] ∧
    (⟨JsData.arr [], none⟩ : UpdateResult).error = none ∧
    "Task with ID x not found" ≠ "Failed to update task x" := by
  refine ⟨by decide, rfl, by decide⟩

/-- C7 (amended): every failing operation produces exactly one error
notification; its message is the caught error's message when that is a
non-empty string — the server-provided message for transport failures, or the
constructed not-found message for `updateTask`'s zero-row case — and the
per-operation fallback otherwise; `getTaskById`, `createTask`, `updateTask`
and `deleteTask` re-throw the caught error, while `fetchTasks` swallows it
and only records the error state. -/
theorem C7_error_policy :
    (∀ (id : String) (e : JsError) (s : ServiceState),
      getTaskById id (SingleResult.err e) s =
        (s, [Toast.error (jsOr e.message ("获取任务 " ++ id ++ " 失败"))],
          Outcome.thrown e)) ∧
    (∀ (e : JsError) (s : ServiceState),
      createTask (SingleResult.err e) s =
        (s, [Toast.error (jsOr e.message "Failed to create task")],
          Outcome.thrown e)) ∧
    (∀ (id : String) (d : JsData) (e : JsError) (s : ServiceState),
      updateTask id ⟨d, some e⟩ s =
        (s, [Toast.error (jsOr e.message ("Failed to update task " ++ id))],
          Outcome.thrown e)) ∧
    (∀ (id : String) (s : ServiceState) (d : JsData),
      d = JsData.null ∨ d = JsData.arr [] →
      updateTask id ⟨d, none⟩ s =
        (s, [Toast.error ("Task with ID " ++ id ++ " not found")],
          Outcome.thrown ⟨some ("Task with ID " ++ id ++ " not found")⟩)) ∧
    (∀ (id : String) (e : JsError) (s : ServiceState),
      deleteTask id (some e) s =
        (s, [Toast.error (jsOr e.message ("Failed to delete task " ++ id))],
          Outcome.thrown e)) ∧
    (∀ (e : JsError) (s : ServiceState),
      (fetchTasks (SelectResult.err e) s).2 =
        [Toast.error (jsOr e.message
          "Failed to fetch tasks, please try again later")] ∧
      ((fetchTasks (SelectResult.err e) s).1).error =
        some (jsOr e.message
          "Failed to fetch tasks, please try again later")) := by
  refine ⟨fun id e s => rfl, fun e s => rfl, fun id d e s => rfl,
    fun id s d hd => ?_, fun id e s => rfl, fun e s => ⟨rfl, rfl⟩⟩
  have hmsg := taskNotFoundMsg_ne_empty id
  rcases hd with h | h <;> subst h <;>
    simp [updateTask, jsOr, hmsg]

/-- Witness for C7 (its one hypothesis is the null-or-empty disjunct of the
not-found conjunct), instantiated at id `x` and a null data payload. -/
theorem C7_witness :
    ((JsData.null = JsData.null ∨ JsData.null = JsData.arr []) →
      updateTask "x" ⟨JsData.null, none⟩ ⟨[], false, none⟩ =
        (⟨[], false, none⟩, [Toast.error ("Task with ID " ++ "x" ++ " not found")],
          Outcome.thrown ⟨some ("Task with ID " ++ "x" ++ " not found")⟩)) ∧
    (JsData.null = JsData.null ∨ JsData.null = JsData.arr []) :=
  ⟨C7_error_policy.2.2.2.1 "x" ⟨[], false, none⟩ JsData.null, Or.inl rfl⟩

/-- C8: `useTasks` throws when the context value is null (no provider above)
and returns the provider's context object otherwise. -/
theorem C8_useTasks_throws_without_provider {α : Type} (c : α) :
    useTasks (some c) = Except.ok c ∧
    useTasks (none : Option α) =
      Except.error "useTasks has to be used within <TasksContext>" :=
  ⟨rfl, rfl⟩

/-- C9: with `currentRow` null the orchestrator renders neither the update
drawer nor the confirm dialog, for every open value including `delete`; with
a row present the confirm dialog is rendered, open exactly when `open` is
`delete`. -/
theorem C9_no_row_no_delete_dialog (o : Option TasksDialogType) (r : Task) :
    (TasksDialogs ⟨o, none⟩).updateDrawerOpen = none ∧
    (TasksDialogs ⟨o, none⟩).confirmDialogOpen = none ∧
    (TasksDialogs ⟨o, some r⟩).confirmDialogOpen =
      some (o == some TasksDialogType.delete) :=
  ⟨rfl, rfl, rfl⟩

/-- C10: `fetchTasks` sets the loading flag on entry and clears it on every
completion path; `getTaskById` and `updateTask` return the state untouched,
and `createTask` and `deleteTask` preserve the loading and error fields on
every path. -/
theorem C10_loading_flag_frame :
    (∀ s : ServiceState, (fetchTasksEntry s).loading = true) ∧
    (∀ (remote : SelectResult) (s : ServiceState),
      ((fetchTasks remote s).1).loading = false) ∧
    (∀ (id : String) (remote : SingleResult) (s : ServiceState),
      (getTaskById id remote s).1 = s) ∧
    (∀ (id : String) (remote : UpdateResult) (s : ServiceState),
      (updateTask id remote s).1 = s) ∧
    (∀ (remote : SingleResult) (s : ServiceState),
      ((createTask remote s).1).loading = s.loading ∧
      ((createTask remote s).1).error = s.error) ∧
    (∀ (id : String) (remote : Option JsError) (s : ServiceState),
      ((deleteTask id remote s).1).loading = s.loading ∧
      ((deleteTask id remote s).1).error = s.error) := by
  refine ⟨fun s => rfl, fun remote s => ?_, fun id remote s => ?_,
    fun id remote s => ?_, fun remote s => ?_, fun id remote s => ?_⟩
  · cases remote <;> rfl
  · cases remote <;> rfl
  · obtain ⟨d, e⟩ := remote
    cases e
    · cases d with
      | null => rfl
      | arr rows => cases rows <;> rfl
      | single t => rfl
    · rfl
  · cases remote <;> exact ⟨rfl, rfl⟩
  · cases remote <;> exact ⟨rfl, rfl⟩

end HerouiAdmin
